import Mathlib

/-!
Verification of the btcd entry-point file (src/btcd.go): the `foo`/`main`
entry behaviour, the control flow of `btcdMain` (interrupt checks, block
database load, index dropping, server creation, deferred cleanup), and the
index-drop dependency rule of the Index Manager (spec section 4.6).

The Go code is embedded shallowly.  Every call a run of `btcdMain` or
`main` makes to a collaborator (configuration load, interrupt checks, the
block database, the index droppers, the server, the log) is an `Event`;
the results those collaborators would return are supplied by an oracle
(`Env` for `btcdMain`, `MainEnv` for `main`); a run of a function is the
list of events it emits, in order, together with its result.  Go `defer`
is modelled by an explicit list of events executed in
last-registered-first order on every return path, exactly as Go runs
deferred functions; `os.Exit` terminates the run at once, skipping
deferred functions, exactly as in Go.
-/

/-- Errors returned by Go collaborators are abstract: only nil versus
non-nil, and the identity of the value, matter to the embedded control
flow, so a `GoError` is just an opaque string. -/
abbrev GoError := String

/-- The configuration fields of `config` (loaded by `loadConfig`) that the
control flow of `btcdMain` reads.  `cfg.Listeners` is only passed through
to `newServer` and carries no control flow, so it is not modelled. -/
structure config where
  DropAddrIndex : Bool
  DropTxIndex : Bool
deriving DecidableEq

/-- One observable step of a run of `main`/`btcdMain`: each constructor is
one call site in src/btcd.go (the line numbers refer to that file). -/
inductive Event where
  /-- `loadConfig()` (line 34). -/
  | loadConfig
  /-- deferred `backendLog.Flush()` (line 39). -/
  | logFlush
  /-- `interruptListener()` (line 44). -/
  | interruptListener
  /-- deferred `btcdLog.Info("Shutdown complete")` (line 45). -/
  | logShutdownComplete
  /-- `btcdLog.Infof("Version %s", ...)` (line 48). -/
  | logVersion
  /-- `interruptRequested(interruptedChan)` (lines 51 and 67). -/
  | interruptCheck
  /-- `loadBlockDB()` (line 55). -/
  | loadBlockDB
  /-- `btcdLog.Errorf("%v", err)` (lines 57, 77, 85) or the server error
  log (line 96). -/
  | logError
  /-- `btcdLog.Infof("Gracefully shutting down the database...")` inside
  the deferred closure (line 62). -/
  | logDbShutdown
  /-- `db.Close()` inside the deferred closure (line 63). -/
  | dbClose
  /-- `indexers.DropAddrIndex(db)` (line 76). -/
  | dropAddrIndexCall
  /-- `indexers.DropTxIndex(db)` (line 84). -/
  | dropTxIndexCall
  /-- `newServer(cfg.Listeners, db, activeNetParams.Params)` (line 93). -/
  | newServerCall
  /-- `btcdLog.Infof("Gracefully shutting down the server...")` inside the
  deferred closure (line 101). -/
  | logServerShutdown
  /-- `server.Stop()` inside the deferred closure (line 102). -/
  | serverStop
  /-- `server.WaitForShutdown()` inside the deferred closure (line 103). -/
  | serverWaitForShutdown
  /-- `srvrLog.Infof("Server shutdown complete")` (line 104). -/
  | logServerShutdownComplete
  /-- `server.Start()` (line 106). -/
  | serverStart
  /-- `serverChan <- server` (line 108). -/
  | serverChanSend
  /-- `<-interruptedChan` (line 114). -/
  | waitInterrupt
  /-- `hex.DecodeString(h)` in `foo` (line 139). -/
  | hexDecodeCall
  /-- `fmt.Println(data, err)` in `foo` (line 140); the payload is the
  decoded bytes (`some` data when `err` is nil, `none` when non-nil). -/
  | printOutput (data : Option (List Nat))
  /-- `runtime.GOMAXPROCS(runtime.NumCPU())` (line 146). -/
  | gomaxprocs
  /-- `debug.SetGCPercent(10)` (line 152). -/
  | setGCPercent
  /-- `limits.SetLimits()` (line 155). -/
  | setLimitsCall
  /-- `fmt.Fprintf(os.Stderr, ...)` (line 156) or `fmt.Println(err)`
  (line 166). -/
  | printErr
  /-- `winServiceMain()` (line 164). -/
  | winServiceMainCall
deriving DecidableEq

/-- The oracle for one run of `btcdMain`: the results every collaborator
it calls would return.  `none` in an `Option GoError` field is a nil Go
error (success); `interrupt1`/`interrupt2` are the results of the
`interruptRequested` checks at lines 51 and 67. -/
structure Env where
  loadConfigResult : Except GoError config
  interrupt1 : Bool
  interrupt2 : Bool
  loadBlockDBResult : Option GoError
  dropAddrIndexResult : Option GoError
  dropTxIndexResult : Option GoError
  newServerResult : Option GoError
  serverChanNonNil : Bool

/-- The run of `btcdMain` (src/btcd.go lines 31-116) under oracle `env`:
the ordered list of events it emits and its returned error (`none` is the
Go `nil` return).  `defers` accumulates the events of the deferred
closures, front of the list executed first (Go runs deferred functions in
last-registered-first order); every `return` statement appends `defers`
to the trace. -/
def btcdMain (env : Env) : List Event × Option GoError :=
  -- tcfg, _, err := loadConfig(); if err != nil { return err }  (lines 34-37)
  match env.loadConfigResult with
  | .error e => ([Event.loadConfig], some e)
  | .ok cfg =>
    -- defer backendLog.Flush() (line 39); interruptListener() (line 44);
    -- defer btcdLog.Info("Shutdown complete") (line 45); version log (line 48)
    let defers := [Event.logShutdownComplete, Event.logFlush]
    let trace := [Event.loadConfig, Event.interruptListener, Event.logVersion,
                  Event.interruptCheck]
    -- if interruptRequested(interruptedChan) { return nil }  (lines 51-53)
    if env.interrupt1 then (trace ++ defers, none) else
    -- db, err := loadBlockDB()  (lines 55-59)
    let trace := trace ++ [Event.loadBlockDB]
    match env.loadBlockDBResult with
    | some e => (trace ++ [Event.logError] ++ defers, some e)
    | none =>
    -- defer func() { log; db.Close() }()  (lines 60-64)
    let defers := [Event.logDbShutdown, Event.dbClose] ++ defers
    -- if interruptRequested(interruptedChan) { return nil }  (lines 67-69)
    let trace := trace ++ [Event.interruptCheck]
    if env.interrupt2 then (trace ++ defers, none) else
    -- if cfg.DropAddrIndex { ...; return nil }  (lines 75-82)
    if cfg.DropAddrIndex then
      let trace := trace ++ [Event.dropAddrIndexCall]
      match env.dropAddrIndexResult with
      | some e => (trace ++ [Event.logError] ++ defers, some e)
      | none => (trace ++ defers, none)
    -- if cfg.DropTxIndex { ...; return nil }  (lines 83-90)
    else if cfg.DropTxIndex then
      let trace := trace ++ [Event.dropTxIndexCall]
      match env.dropTxIndexResult with
      | some e => (trace ++ [Event.logError] ++ defers, some e)
      | none => (trace ++ defers, none)
    else
      -- server, err := newServer(...)  (lines 93-99)
      let trace := trace ++ [Event.newServerCall]
      match env.newServerResult with
      | some e => (trace ++ [Event.logError] ++ defers, some e)
      | none =>
      -- defer func() { log; server.Stop(); server.WaitForShutdown(); log }()
      -- (lines 100-105)
      let defers := [Event.logServerShutdown, Event.serverStop,
                     Event.serverWaitForShutdown,
                     Event.logServerShutdownComplete] ++ defers
      -- server.Start()  (line 106)
      let trace := trace ++ [Event.serverStart]
      -- if serverChan != nil { serverChan <- server }  (lines 107-109)
      let trace := if env.serverChanNonNil then trace ++ [Event.serverChanSend]
                   else trace
      -- <-interruptedChan; return nil  (lines 114-115)
      (trace ++ [Event.waitInterrupt] ++ defers, none)

/-- The value of one hexadecimal character, as Go's
`encoding/hex.fromHexChar` computes it (digits, lowercase and uppercase
letters); `none` for any other character. -/
def fromHexChar (c : Char) : Option Nat :=
  if ('0' : Char) ≤ c ∧ c ≤ ('9' : Char) then some (c.toNat - ('0' : Char).toNat)
  else if ('a' : Char) ≤ c ∧ c ≤ ('f' : Char) then some (c.toNat - ('a' : Char).toNat + 10)
  else if ('A' : Char) ≤ c ∧ c ≤ ('F' : Char) then some (c.toNat - ('A' : Char).toNat + 10)
  else none

/-- Pair-wise hexadecimal decoding over a character list, as Go's
`encoding/hex.Decode` consumes its input: two characters per output byte.
Go distinguishes `ErrLength` (odd input length) from `InvalidByteError`;
`foo` only prints the error value, so both collapse to `none` here. -/
def hexDecodePairs : List Char → Option (List Nat)
  | [] => some []
  | [_] => none
  | a :: b :: rest =>
    match fromHexChar a, fromHexChar b with
    | some hi, some lo => (hexDecodePairs rest).map (fun t => (hi * 16 + lo) :: t)
    | _, _ => none

/-- Go's `encoding/hex.DecodeString`: `some bytes` when the string decodes
(the returned error is nil), `none` when it reports an error. -/
def hexDecodeString (s : String) : Option (List Nat) :=
  hexDecodePairs s.toList

/-- The fixed literal `h` that `foo` decodes (src/btcd.go line 138). -/
def fooHexLiteral : String := "76a914da90c671eb03bfddf1d62dd1bdf520f060cf41c088ac"

/-- The run of `foo` (src/btcd.go lines 137-142): it decodes
`fooHexLiteral`, prints the decoded data and error, and calls
`os.Exit(1)`.  The second component is the exit status `os.Exit` was
called with: `some s` terminates the whole process with status `s`
(skipping all deferred functions), `none` would mean the function
returned normally — `foo` never does. -/
def runFoo : List Event × Option Nat :=
  ([Event.hexDecodeCall, Event.printOutput (hexDecodeString fooHexLiteral)],
   some 1)

/-- The oracle for one run of `main`: the operating system name
(`runtime.GOOS`), what `winServiceMain` would report if called
(`winServiceIsService`, `winServiceErr` — on Windows it is installed by
the service file's init; elsewhere the call is guarded away), the result
of `limits.SetLimits()`, and the oracle for the inner `btcdMain` call. -/
structure MainEnv where
  goos : String
  winServiceIsService : Bool
  winServiceErr : Option GoError
  setLimitsResult : Option GoError
  env : Env

/-- The part of `main` after the call to `foo` (src/btcd.go lines
145-177), as it would run if control reached it: GOMAXPROCS and GC
tuning, `limits.SetLimits()`, the Windows-only `winServiceMain` dispatch,
then `btcdMain(nil)` — `main` passes a nil `serverChan`, so the inner run
sees `serverChanNonNil = false`.  The second component is the process
exit status: `os.Exit(1)` on a failure, `os.Exit(0)` after running as a
service, status 0 when `main` returns normally. -/
def mainAfterFoo (m : MainEnv) : List Event × Nat :=
  -- runtime.GOMAXPROCS(...); debug.SetGCPercent(10)  (lines 146, 152)
  let trace := [Event.gomaxprocs, Event.setGCPercent, Event.setLimitsCall]
  -- if err := limits.SetLimits(); err != nil { ...; os.Exit(1) }  (lines 155-158)
  match m.setLimitsResult with
  | some _ => (trace ++ [Event.printErr], 1)
  | none =>
    -- if runtime.GOOS == "windows" { ... }  (lines 163-172)
    if m.goos = "windows" then
      let trace := trace ++ [Event.winServiceMainCall]
      match m.winServiceErr with
      | some _ => (trace ++ [Event.printErr], 1)
      | none =>
        if m.winServiceIsService then (trace, 0)
        else
          -- if err := btcdMain(nil); err != nil { os.Exit(1) }  (lines 175-177)
          match btcdMain { m.env with serverChanNonNil := false } with
          | (tr, some _) => (trace ++ tr, 1)
          | (tr, none) => (trace ++ tr, 0)
    else
      match btcdMain { m.env with serverChanNonNil := false } with
      | (tr, some _) => (trace ++ tr, 1)
      | (tr, none) => (trace ++ tr, 0)

/-- The run of `main` (src/btcd.go lines 143-178): `foo()` is called
first (line 144); when `foo` calls `os.Exit`, the whole process
terminates there with that status and nothing after the call runs.  The
result is the process trace and the exit status (0 for a normal return
from `main`). -/
def runMain (m : MainEnv) : List Event × Nat :=
  match runFoo with
  | (tr, some status) => (tr, status)
  | (tr, none) =>
    let r := mainAfterFoo m
    (tr ++ r.1, r.2)

/-- Decidable first-occurrence ordering in a trace:
`occursBefore a b tr = true` when `tr` contains `a` and `b` occurs
(again) after the first occurrence of `a`. -/
def occursBefore (a b : Event) : List Event → Bool
  | [] => false
  | x :: xs => if x = a then decide (b ∈ xs) else occursBefore a b xs

/-- Modelled from the spec: the presence of the two optional derived
indexes in the block database.  The functions `indexers.DropAddrIndex`
and `indexers.DropTxIndex` that `btcdMain` calls live in
`blockchain/indexers`, which is not part of this repository's files, so
the Index Manager's drop operations are modelled from spec section 4.6. -/
structure IndexState where
  txIndexPresent : Bool
  addrIndexPresent : Bool
deriving DecidableEq

/-- Modelled from the spec: the error taxonomy entry for an operational
misuse of the index drop operations (spec section 7,
`DependencyViolation`). -/
inductive DropError where
  | DependencyViolation
deriving DecidableEq

/-- Modelled from the spec: `dropAddressIndex` (spec section 4.6) removes
the address-activity index; dropping it never depends on the transaction
index, so it always succeeds. -/
def dropAddressIndex (s : IndexState) : IndexState × Option DropError :=
  (⟨s.txIndexPresent, false⟩, none)

/-- Modelled from the spec: `dropTransactionIndex` (spec section 4.6)
"fails with `DependencyViolation` if the address index is still present,
since the address index's meaning depends on the transaction index
remaining queryable for the same range"; the refused operation leaves the
state unchanged (spec section 7: "operation refused, state unchanged").
When the address index is absent it removes the transaction index. -/
def dropTransactionIndex (s : IndexState) : IndexState × Option DropError :=
  if s.addrIndexPresent then (s, some DropError.DependencyViolation)
  else (⟨false, s.addrIndexPresent⟩, none)

/-- The bytes `hex.DecodeString` produces for `fooHexLiteral`: the
25-byte pay-to-pubkey-hash script printed by `foo`. -/
def fooBytes : List Nat :=
  [118, 169, 20, 218, 144, 198, 113, 235, 3, 191, 221, 241, 214, 45, 209,
   189, 245, 32, 240, 96, 207, 65, 192, 136, 172]

/-- A `btcdMain` oracle with both index-drop requests configured and every
collaborator succeeding. -/
def envBothDrops : Env := ⟨.ok ⟨true, true⟩, false, false, none, none, none, none, false⟩

/-- A `btcdMain` oracle that reaches the server path, with a non-nil
`serverChan`. -/
def envServer : Env := ⟨.ok ⟨false, false⟩, false, false, none, none, none, none, true⟩

/-- A `btcdMain` oracle whose block-database load fails with the I/O
error `"io"`. -/
def envDbFail : Env := ⟨.ok ⟨false, false⟩, false, false, some "io", none, none, none, false⟩

/-- A `btcdMain` oracle with a shutdown interrupt pending at the first
checkpoint (before the block database is loaded). -/
def envInterrupt1 : Env := ⟨.ok ⟨false, false⟩, true, false, none, none, none, none, false⟩

/-- A `btcdMain` oracle with a shutdown interrupt pending at the second
checkpoint (after the block database is loaded). -/
def envInterrupt2 : Env := ⟨.ok ⟨false, false⟩, false, true, none, none, none, none, false⟩

/-- A `main` oracle on Windows whose `winServiceMain` would report that
the process ran as a service. -/
def menvWin : MainEnv := ⟨"windows", true, none, none, envServer⟩

/-- Claim C1: for every invocation of the program, `main` calls `foo`
before any other work; `foo` hex-decodes the fixed literal, prints the
result, and calls `os.Exit(1)`, so the process always terminates with
exit status 1 without ever invoking `btcdMain` — no configuration load,
database open, index drop, or server start is ever performed. -/
theorem c1_main_exits_via_foo (m : MainEnv) :
    runMain m = ([Event.hexDecodeCall, Event.printOutput (some fooBytes)], 1)
    ∧ hexDecodeString fooHexLiteral = some fooBytes
    ∧ (runMain m).2 = 1
    ∧ Event.loadConfig ∉ (runMain m).1
    ∧ Event.loadBlockDB ∉ (runMain m).1
    ∧ Event.dropAddrIndexCall ∉ (runMain m).1
    ∧ Event.dropTxIndexCall ∉ (runMain m).1
    ∧ Event.newServerCall ∉ (runMain m).1
    ∧ Event.serverStart ∉ (runMain m).1 := by
  have hd : hexDecodeString fooHexLiteral = some fooBytes := by decide
  have hr : runMain m = ([Event.hexDecodeCall, Event.printOutput (some fooBytes)], 1) := by
    rw [← hd]; rfl
  rw [hr]
  decide

/-- Claim C2: attempting to drop the transaction index while the address
index is still present always fails with `DependencyViolation` and leaves
both indexes unchanged (the operation returns the input state as is). -/
theorem c2_dropTransactionIndex_refused (s : IndexState)
    (h : s.addrIndexPresent = true) :
    dropTransactionIndex s = (s, some DropError.DependencyViolation) := by
  simp [dropTransactionIndex, h]

/-- Witness for C2 at the state with both indexes present. -/
theorem c2_dropTransactionIndex_refused_witness :
    (⟨true, true⟩ : IndexState).addrIndexPresent = true
    ∧ dropTransactionIndex ⟨true, true⟩
        = (⟨true, true⟩, some DropError.DependencyViolation) :=
  ⟨rfl, c2_dropTransactionIndex_refused ⟨true, true⟩ rfl⟩

/-- Counterexample to claim C3: with both drop requests configured and
every collaborator succeeding, `btcdMain` performs the address-index drop
and returns nil, but the transaction-index drop is never performed —
contrary to the claim that both drops are performed in sequence. -/
theorem c3_counterexample_no_tx_drop :
    envBothDrops.loadConfigResult = Except.ok ⟨true, true⟩
    ∧ Event.dropAddrIndexCall ∈ (btcdMain envBothDrops).1
    ∧ Event.dropTxIndexCall ∉ (btcdMain envBothDrops).1
    ∧ (btcdMain envBothDrops).2 = none :=
  ⟨rfl, by decide, by decide, rfl⟩

/-- Claim C3 as amended: in a run of `btcdMain` where both the
drop-address-index and drop-transaction-index requests are configured and
the address-index drop succeeds, only the address-index drop is
performed; `btcdMain` then returns nil without performing the
transaction-index drop and without creating a server (dropping both
indexes takes two separate runs). -/
theorem c3_amended_only_addr_drop (env : Env) (cfg : config)
    (hc : env.loadConfigResult = .ok cfg)
    (ha : cfg.DropAddrIndex = true) (ht : cfg.DropTxIndex = true)
    (h1 : env.interrupt1 = false) (h2 : env.interrupt2 = false)
    (hdb : env.loadBlockDBResult = none)
    (hda : env.dropAddrIndexResult = none) :
    (btcdMain env).2 = none
    ∧ Event.dropAddrIndexCall ∈ (btcdMain env).1
    ∧ Event.dropTxIndexCall ∉ (btcdMain env).1
    ∧ Event.newServerCall ∉ (btcdMain env).1 := by
  obtain ⟨lc, i1, i2, db, da, dt, ns, sc⟩ := env
  obtain ⟨a, t⟩ := cfg
  simp only at hc ha ht h1 h2 hdb hda
  subst hc ha ht h1 h2 hdb hda
  simp [btcdMain]

/-- Witness for the amended C3 at the oracle with both drops configured. -/
theorem c3_amended_only_addr_drop_witness :
    (btcdMain envBothDrops).2 = none
    ∧ Event.dropAddrIndexCall ∈ (btcdMain envBothDrops).1
    ∧ Event.dropTxIndexCall ∉ (btcdMain envBothDrops).1
    ∧ Event.newServerCall ∉ (btcdMain envBothDrops).1 :=
  c3_amended_only_addr_drop envBothDrops ⟨true, true⟩ rfl rfl rfl rfl rfl rfl rfl

/-- Claim C4: when a request to drop the address index or the transaction
index is configured, `btcdMain` never calls `newServer` and never starts
a server; and in a run that reaches the drop handling (no configuration
failure, no interrupt, database loaded), the requested drop is performed
and `btcdMain` returns its success/failure result immediately (the
address-index request is checked first). -/
theorem c4_drop_requests_skip_server (env : Env) (cfg : config)
    (hc : env.loadConfigResult = .ok cfg)
    (hflag : cfg.DropAddrIndex = true ∨ cfg.DropTxIndex = true) :
    Event.newServerCall ∉ (btcdMain env).1
    ∧ Event.serverStart ∉ (btcdMain env).1
    ∧ (env.interrupt1 = false → env.loadBlockDBResult = none →
       env.interrupt2 = false →
        ((cfg.DropAddrIndex = true →
            Event.dropAddrIndexCall ∈ (btcdMain env).1
            ∧ (btcdMain env).2 = env.dropAddrIndexResult)
         ∧ (cfg.DropAddrIndex = false →
            Event.dropTxIndexCall ∈ (btcdMain env).1
            ∧ (btcdMain env).2 = env.dropTxIndexResult))) := by
  obtain ⟨lc, i1, i2, db, da, dt, ns, sc⟩ := env
  obtain ⟨a, t⟩ := cfg
  simp only at hc hflag
  subst hc
  cases i1 <;> cases db <;> cases i2 <;> cases a <;> cases t <;> cases da <;>
    cases dt <;> simp_all [btcdMain]

/-- Witness for C4 at the oracle with both drop requests configured. -/
theorem c4_drop_requests_skip_server_witness :
    Event.newServerCall ∉ (btcdMain envBothDrops).1
    ∧ Event.dropAddrIndexCall ∈ (btcdMain envBothDrops).1
    ∧ (btcdMain envBothDrops).2 = envBothDrops.dropAddrIndexResult := by
  have h := c4_drop_requests_skip_server envBothDrops ⟨true, true⟩ rfl (Or.inl rfl)
  exact ⟨h.1, ((h.2.2 rfl rfl rfl).1 rfl).1, ((h.2.2 rfl rfl rfl).1 rfl).2⟩

/-- Claim C5: when loading the block database fails, `btcdMain` does not
retry internally (the load is attempted exactly once), returns that error
to its caller without creating or starting a server; and every run of
`main` exits with status 1, which is non-zero — in particular the
`main`-level handling of a `btcdMain` error (lines 175-177) exits with
status 1. -/
theorem c5_db_load_failure_propagates (env : Env) (cfg : config) (e : GoError)
    (hc : env.loadConfigResult = .ok cfg)
    (h1 : env.interrupt1 = false)
    (hdb : env.loadBlockDBResult = some e) :
    (btcdMain env).2 = some e
    ∧ (btcdMain env).1.count Event.loadBlockDB = 1
    ∧ Event.newServerCall ∉ (btcdMain env).1
    ∧ Event.serverStart ∉ (btcdMain env).1
    ∧ (∀ g wsv wse, g ≠ "windows" →
         (mainAfterFoo ⟨g, wsv, wse, none, env⟩).2 = 1)
    ∧ (∀ m : MainEnv, (runMain m).2 = 1) := by
  obtain ⟨lc, i1, i2, db, da, dt, ns, sc⟩ := env
  simp only at hc h1 hdb
  subst hc h1 hdb
  refine ⟨rfl, rfl, by simp [btcdMain], by simp [btcdMain], ?_, fun _ => rfl⟩
  intro g wsv wse hg
  simp [mainAfterFoo, hg, btcdMain]

/-- Witness for C5 at the oracle whose database load fails with `"io"`. -/
theorem c5_db_load_failure_propagates_witness :
    (btcdMain envDbFail).2 = some "io"
    ∧ (btcdMain envDbFail).1.count Event.loadBlockDB = 1
    ∧ Event.newServerCall ∉ (btcdMain envDbFail).1 := by
  have h := c5_db_load_failure_propagates envDbFail ⟨false, false⟩ "io" rfl rfl rfl
  exact ⟨h.1, h.2.1, h.2.2.1⟩

/-- Claim C6: on every exit path of `btcdMain` taken after the block
database was successfully loaded (interrupt return, drop-index returns,
server failure, normal return), the deferred close runs: `db.Close()` is
in the trace, after the load, before `btcdMain` returns. -/
theorem c6_db_closed_on_every_exit (env : Env) (cfg : config)
    (hc : env.loadConfigResult = .ok cfg)
    (h1 : env.interrupt1 = false)
    (hdb : env.loadBlockDBResult = none) :
    Event.dbClose ∈ (btcdMain env).1
    ∧ occursBefore Event.loadBlockDB Event.dbClose (btcdMain env).1 = true := by
  obtain ⟨lc, i1, i2, db, da, dt, ns, sc⟩ := env
  obtain ⟨a, t⟩ := cfg
  simp only at hc h1 hdb
  subst hc h1 hdb
  cases i2 <;> cases a <;> cases t <;> cases da <;> cases dt <;> cases ns <;> cases sc <;>
    exact ⟨by simp [btcdMain], rfl⟩

/-- Witness for C6 at the oracle that reaches the server path. -/
theorem c6_db_closed_on_every_exit_witness :
    Event.dbClose ∈ (btcdMain envServer).1
    ∧ occursBefore Event.loadBlockDB Event.dbClose (btcdMain envServer).1 = true :=
  c6_db_closed_on_every_exit envServer ⟨false, false⟩ rfl rfl rfl

/-- Claim C7: when the server has been created, deferred cleanup runs
innermost-acquired-first on the exit path: the server is stopped, then
its shutdown awaited, both before the database is closed, and the log is
flushed after both. -/
theorem c7_cleanup_order (env : Env) (cfg : config)
    (hc : env.loadConfigResult = .ok cfg)
    (h1 : env.interrupt1 = false)
    (hdb : env.loadBlockDBResult = none)
    (h2 : env.interrupt2 = false)
    (hda : cfg.DropAddrIndex = false)
    (hdt : cfg.DropTxIndex = false)
    (hns : env.newServerResult = none) :
    occursBefore Event.serverStop Event.serverWaitForShutdown (btcdMain env).1 = true
    ∧ occursBefore Event.serverStop Event.dbClose (btcdMain env).1 = true
    ∧ occursBefore Event.serverWaitForShutdown Event.dbClose (btcdMain env).1 = true
    ∧ occursBefore Event.dbClose Event.logFlush (btcdMain env).1 = true := by
  obtain ⟨lc, i1, i2, db, da, dt, ns, sc⟩ := env
  obtain ⟨a, t⟩ := cfg
  simp only at hc h1 hdb h2 hda hdt hns
  subst hc h1 hdb h2 hda hdt hns
  cases sc <;> exact ⟨rfl, rfl, rfl, rfl⟩

/-- Witness for C7 at the oracle that reaches the server path. -/
theorem c7_cleanup_order_witness :
    occursBefore Event.serverStop Event.dbClose (btcdMain envServer).1 = true
    ∧ occursBefore Event.dbClose Event.logFlush (btcdMain envServer).1 = true := by
  have h := c7_cleanup_order envServer ⟨false, false⟩ rfl rfl rfl rfl rfl rfl rfl
  exact ⟨h.2.1, h.2.2.2⟩

/-- No run of `btcdMain` ever calls `winServiceMain`: the dispatch lives
only in `main` (src/btcd.go lines 160-172). -/
theorem btcdMain_no_winServiceMain (env : Env) :
    Event.winServiceMainCall ∉ (btcdMain env).1 := by
  obtain ⟨lc, i1, i2, db, da, dt, ns, sc⟩ := env
  cases lc with
  | error e => simp [btcdMain]
  | ok cfg =>
    obtain ⟨a, t⟩ := cfg
    cases i1 <;> cases db <;> cases i2 <;> cases a <;> cases t <;> cases da <;>
      cases dt <;> cases ns <;> cases sc <;> simp [btcdMain]

/-- Counterexample to claim C8: on Windows, with `winServiceMain` ready
to report that the process ran as a service, `main` still never invokes
`winServiceMain` and exits with status 1, not 0 — `foo` terminates the
process first. -/
theorem c8_counterexample_dispatch_never_reached :
    menvWin.goos = "windows"
    ∧ menvWin.winServiceIsService = true
    ∧ menvWin.winServiceErr = none
    ∧ Event.winServiceMainCall ∉ (runMain menvWin).1
    ∧ (runMain menvWin).2 = 1 :=
  ⟨rfl, rfl, rfl, by decide, rfl⟩

/-- Claim C8 as amended: `winServiceMain` is never invoked in any actual
run of `main`, on any operating system, because `main` always exits with
status 1 inside `foo` before reaching the dispatch.  The
service-dispatch code itself (src/btcd.go lines 160-172), were control to
reach it, calls `winServiceMain` only when the operating system is
Windows, and when it reports that the process ran as a service it exits
with status 0 without entering normal operation (no configuration load,
hence no `btcdMain` work). -/
theorem c8_amended_dispatch_unreachable (m : MainEnv) :
    Event.winServiceMainCall ∉ (runMain m).1
    ∧ (runMain m).2 = 1
    ∧ (m.goos ≠ "windows" → Event.winServiceMainCall ∉ (mainAfterFoo m).1)
    ∧ (m.goos = "windows" → m.setLimitsResult = none → m.winServiceErr = none →
        Event.winServiceMainCall ∈ (mainAfterFoo m).1
        ∧ (m.winServiceIsService = true →
            (mainAfterFoo m).2 = 0
            ∧ Event.loadConfig ∉ (mainAfterFoo m).1)) := by
  obtain ⟨g, wsv, wse, sl, env⟩ := m
  refine ⟨by simp [runMain, runFoo], rfl, ?_, ?_⟩
  · intro hg
    cases sl with
    | some e => simp [mainAfterFoo]
    | none =>
      have hw := btcdMain_no_winServiceMain { env with serverChanNonNil := false }
      rcases hbm : btcdMain { env with serverChanNonNil := false } with ⟨tr, res⟩
      rw [hbm] at hw
      simp only [mainAfterFoo, hg, if_false, ite_false, hbm]
      cases res <;> simp [List.mem_append, hw]
  · intro hg hsl hwse
    simp only at hg hsl hwse
    subst hg hsl hwse
    cases wsv with
    | true =>
      exact ⟨by simp [mainAfterFoo], fun _ => ⟨rfl, by simp [mainAfterFoo]⟩⟩
    | false =>
      refine ⟨?_, fun hcontra => by simp at hcontra⟩
      rcases hbm : btcdMain { env with serverChanNonNil := false } with ⟨tr, res⟩
      simp only [mainAfterFoo, hbm]
      cases res <;> simp [List.mem_append]

/-- Claim C9: a shutdown interrupt pending at the first startup
checkpoint of `btcdMain` (before the block database is loaded) makes it
return nil without loading the database or creating a server; one
pending at the second checkpoint (after the database is loaded) makes it
return nil without creating a server, and the database is still closed
before return. -/
theorem c9_interrupt_checkpoints (env : Env) (cfg : config)
    (hc : env.loadConfigResult = .ok cfg) :
    (env.interrupt1 = true →
       (btcdMain env).2 = none
       ∧ Event.loadBlockDB ∉ (btcdMain env).1
       ∧ Event.newServerCall ∉ (btcdMain env).1
       ∧ Event.serverStart ∉ (btcdMain env).1)
    ∧ (env.interrupt1 = false → env.loadBlockDBResult = none →
       env.interrupt2 = true →
       (btcdMain env).2 = none
       ∧ Event.newServerCall ∉ (btcdMain env).1
       ∧ Event.serverStart ∉ (btcdMain env).1
       ∧ Event.dbClose ∈ (btcdMain env).1) := by
  obtain ⟨lc, i1, i2, db, da, dt, ns, sc⟩ := env
  obtain ⟨a, t⟩ := cfg
  simp only at hc
  subst hc
  constructor
  · intro h
    simp only at h
    subst h
    exact ⟨rfl, by simp [btcdMain], by simp [btcdMain], by simp [btcdMain]⟩
  · intro h1 hdb h2
    simp only at h1 hdb h2
    subst h1 hdb h2
    exact ⟨rfl, by simp [btcdMain], by simp [btcdMain], by simp [btcdMain]⟩

/-- Witness for C9, applied at an oracle interrupted at the first
checkpoint and at one interrupted at the second checkpoint. -/
theorem c9_interrupt_checkpoints_witness :
    ((btcdMain envInterrupt1).2 = none
     ∧ Event.loadBlockDB ∉ (btcdMain envInterrupt1).1
     ∧ Event.newServerCall ∉ (btcdMain envInterrupt1).1
     ∧ Event.serverStart ∉ (btcdMain envInterrupt1).1)
    ∧ ((btcdMain envInterrupt2).2 = none
       ∧ Event.newServerCall ∉ (btcdMain envInterrupt2).1
       ∧ Event.serverStart ∉ (btcdMain envInterrupt2).1
       ∧ Event.dbClose ∈ (btcdMain envInterrupt2).1) :=
  ⟨(c9_interrupt_checkpoints envInterrupt1 ⟨false, false⟩ rfl).1 rfl,
   (c9_interrupt_checkpoints envInterrupt2 ⟨false, false⟩ rfl).2 rfl rfl rfl⟩

/-- Claim C10: whenever a run of `btcdMain` sends the server on
`serverChan`, `server.Start()` has already been invoked earlier in that
run, so a caller receiving from the channel always observes an
already-started server. -/
theorem c10_server_sent_after_start (env : Env)
    (h : Event.serverChanSend ∈ (btcdMain env).1) :
    occursBefore Event.serverStart Event.serverChanSend (btcdMain env).1 = true := by
  obtain ⟨lc, i1, i2, db, da, dt, ns, sc⟩ := env
  cases lc with
  | error e => simp [btcdMain] at h
  | ok cfg =>
    obtain ⟨a, t⟩ := cfg
    cases i1 <;> cases db <;> cases i2 <;> cases a <;> cases t <;> cases da <;>
      cases dt <;> cases ns <;> cases sc <;> first | rfl | simp [btcdMain] at h

/-- Witness for C10 at the oracle with a non-nil `serverChan`. -/
theorem c10_server_sent_after_start_witness :
    Event.serverChanSend ∈ (btcdMain envServer).1
    ∧ occursBefore Event.serverStart Event.serverChanSend (btcdMain envServer).1 = true :=
  ⟨by decide, c10_server_sent_after_start envServer (by decide)⟩
